import Mathlib

/-!
Shallow embedding of the e-commerce TRPC backend (handlers for orders,
payments, products, shipping, addresses) and proofs about the properties
its specification states.

Modelling conventions:
* Monetary values and weights are stored as fixed-point `numeric` strings in
  the database and parsed back to JS numbers by the handlers; they are
  modelled as `Int` (the claims only involve integer arithmetic).
* Database-generated values (serial primary keys, `Date.now()`, random order
  numbers) are passed to the modelled handlers as explicit parameters.
* Timestamps are modelled only where behaviour depends on them:
  `Order.created_at` (used for sorting in `getOrders`) and
  `Payment.paid_at` (set by the webhook handler); `updated_at` columns are
  write-only and omitted.
* Handlers that throw are modelled with `Except String`; a handler that
  mutates the database returns the new database state on success, and the
  state is unchanged when an error is thrown (every handler throws before
  its first write or performs its writes after the last possible throw,
  matching the source order of operations).
-/

namespace Ecom

/-- JS `x || d` for numbers coming from an optional field: `undefined` and
`0` are falsy. -/
def jsOr (x : Option Int) (d : Int) : Int :=
  match x with
  | none => d
  | some v => if v = 0 then d else v

/-- JS `x || d` for an optional string field: `undefined` and `""` are
falsy. -/
def jsOrStr (x : Option String) (d : Option String) : Option String :=
  match x with
  | none => d
  | some s => if s = "" then d else some s

/-- `Math.ceil(w / 1000)` for a non-negative integer number of grams. -/
def ceilKg (w : Int) : Int :=
  ((w.toNat + 999) / 1000 : Nat)

/-- Case-insensitive containment over character lists (`ILIKE '%pat%'`). -/
def containsSub (hay pat : List Char) : Bool :=
  match hay with
  | [] => pat.isEmpty
  | _ :: t => pat.isPrefixOf hay || containsSub t pat

/-- SQL `ILIKE '%pat%'` on a text column. -/
def ilike (hay pat : String) : Bool :=
  containsSub hay.toLower.data pat.toLower.data

/-- Order status enum (`orderStatusSchema` in schema.ts). -/
inductive OrderStatus where
  | pending | paid | processing | shipped | delivered | cancelled
deriving DecidableEq, Repr

/-- Payment status enum (`paymentStatusSchema` in schema.ts). -/
inductive PaymentStatus where
  | pending | paid | failed | cancelled
deriving DecidableEq, Repr

/-- Row of `productsTable` (fields the handlers read). -/
structure Product where
  id : Nat
  name : String
  description : Option String
  price : Int
  stock_quantity : Int
  category_id : Nat
  weight : Int
  is_active : Bool
deriving DecidableEq, Repr

/-- Row of `customerAddressesTable` (the handlers only read the id, the
owner and the default flag; the address text columns are copied verbatim
and never branched on). -/
structure CustomerAddress where
  id : Nat
  user_id : Nat
  is_default : Bool
deriving DecidableEq, Repr

/-- Row of `ordersTable`. -/
structure Order where
  id : Nat
  user_id : Nat
  order_number : String
  status : OrderStatus
  total_amount : Int
  shipping_cost : Int
  shipping_tracking_number : Option String
  created_at : Nat
deriving DecidableEq, Repr

/-- Row of `orderItemsTable` (its serial primary key is never read by a
handler and is omitted). -/
structure OrderItem where
  order_id : Nat
  product_id : Nat
  quantity : Int
  unit_price : Int
  total_price : Int
deriving DecidableEq, Repr

/-- Row of `paymentsTable`. -/
structure Payment where
  id : Nat
  order_id : Nat
  payment_method : String
  payment_status : PaymentStatus
  amount : Int
  midtrans_transaction_id : Option String
  midtrans_payment_type : Option String
  paid_at : Option Nat
deriving DecidableEq, Repr

/-- The relational store: one list per table, in insertion order. -/
structure DB where
  products : List Product
  addresses : List CustomerAddress
  orders : List Order
  orderItems : List OrderItem
  payments : List Payment
deriving DecidableEq, Repr

/-- Item of `createOrderInputSchema.items`. -/
structure OrderItemInput where
  product_id : Nat
  quantity : Int
deriving DecidableEq, Repr

/-- `createOrderInputSchema`. -/
structure CreateOrderInput where
  user_id : Nat
  shipping_address_id : Nat
  items : List OrderItemInput
deriving DecidableEq, Repr

/-- `updateOrderStatusInputSchema`; the tracking number is
`string | null | undefined` (outer option: undefined, inner: null). -/
structure UpdateOrderStatusInput where
  id : Nat
  status : OrderStatus
  shipping_tracking_number : Option (Option String)
deriving DecidableEq, Repr

/-- `getOrdersInputSchema`. -/
structure GetOrdersInput where
  user_id : Option Nat
  status : Option OrderStatus
  page : Option Int
  limit : Option Int
deriving DecidableEq, Repr

/-- `getProductsInputSchema`. -/
structure GetProductsInput where
  category_id : Option Nat
  search : Option String
  page : Option Int
  limit : Option Int
  is_active : Option Bool
deriving DecidableEq, Repr

/-- `processPaymentInputSchema`. -/
structure ProcessPaymentInput where
  order_id : Nat
  payment_method : String
deriving DecidableEq, Repr

/-- `calculateShippingInputSchema`. -/
structure CalculateShippingInput where
  origin_city_id : Nat
  destination_city_id : Nat
  weight : Int
  courier : String
deriving DecidableEq, Repr

/-- The payment-gateway webhook body read by `handlePaymentNotification`
(`{transaction_id, transaction_status, payment_type}`; every field may be
absent since the input is `z.any()`). -/
structure Notification where
  transaction_id : Option String
  transaction_status : Option String
  payment_type : Option String
deriving DecidableEq, Repr

/-- Stock of the first product with the given id (`SELECT ... WHERE id =`). -/
def stockOf (ps : List Product) (pid : Nat) : Option Int :=
  (ps.find? (fun p => p.id == pid)).map (fun p => p.stock_quantity)

/-- Status of the first order with the given id. -/
def statusOf (os : List Order) (oid : Nat) : Option OrderStatus :=
  (os.find? (fun o => o.id == oid)).map (fun o => o.status)

/-- Status of the first payment with the given id. -/
def paymentStatusOf (ps : List Payment) (pid : Nat) : Option PaymentStatus :=
  (ps.find? (fun p => p.id == pid)).map (fun p => p.payment_status)

/-- `paid_at` of the first payment with the given id. -/
def paymentPaidAtOf (ps : List Payment) (pid : Nat) : Option (Option Nat) :=
  (ps.find? (fun p => p.id == pid)).map (fun p => p.paid_at)

/-- `UPDATE products SET stock_quantity = v WHERE id = pid`. -/
def updateStockList (ps : List Product) (pid : Nat) (v : Int) : List Product :=
  ps.map (fun p => if p.id == pid then { p with stock_quantity := v } else p)

/-- Stock recorded in the in-memory product snapshot (`productMap.get`),
defaulting to 0 for the unreachable missing case (`createOrder` validates
every item against the map before using it). -/
def snapStock (snap : List Product) (pid : Nat) : Int :=
  match snap.find? (fun p => p.id == pid) with
  | some p => p.stock_quantity
  | none => 0

/-- Price recorded in the in-memory product snapshot. -/
def snapPrice (snap : List Product) (pid : Nat) : Int :=
  match snap.find? (fun p => p.id == pid) with
  | some p => p.price
  | none => 0

/-- The validation/totals loop of `createOrder`: walks the items in order,
failing on a missing/inactive product or insufficient snapshot stock, and
accumulates `totalAmount` and `totalWeight`. -/
def computeTotals (snap : List Product) :
    List OrderItemInput → Int → Int → Except String (Int × Int)
  | [], amt, wt => .ok (amt, wt)
  | it :: rest, amt, wt =>
    match snap.find? (fun p => p.id == it.product_id) with
    | none =>
      .error ("Product with id " ++ toString it.product_id ++ " not found or inactive")
    | some p =>
      if p.stock_quantity < it.quantity then
        .error ("Insufficient stock for product " ++ p.name)
      else
        computeTotals snap rest (amt + p.price * it.quantity) (wt + p.weight * it.quantity)

/-- The order item inserted for one input item (price snapshot). -/
def orderItemOf (snap : List Product) (orderId : Nat) (it : OrderItemInput) : OrderItem :=
  { order_id := orderId
    product_id := it.product_id
    quantity := it.quantity
    unit_price := snapPrice snap it.product_id
    total_price := snapPrice snap it.product_id * it.quantity }

/-- The write loop of `createOrder`: for each item it inserts an order item
and overwrites the product's stock with `snapshot stock - item quantity`
(the snapshot taken before the loop, exactly as in the source). -/
def applyOrderItems (snap : List Product) (orderId : Nat)
    (items : List OrderItemInput) (db : DB) : DB :=
  items.foldl
    (fun acc it =>
      { acc with
        orderItems := acc.orderItems ++ [orderItemOf snap orderId it]
        products :=
          updateStockList acc.products it.product_id
            (snapStock snap it.product_id - it.quantity) })
    db

/-- `createOrder` (src/unnamed/part_002). `now` is the creation timestamp,
`orderNumber` the generated order number and `newOrderId` the serial key
assigned by the database. -/
def createOrder (db : DB) (input : CreateOrderInput) (now : Nat)
    (orderNumber : String) (newOrderId : Nat) : Except String (DB × Order) :=
  if (db.addresses.filter
        (fun a => a.id == input.shipping_address_id && a.user_id == input.user_id)).isEmpty then
    .error "Shipping address not found or does not belong to user"
  else
    match computeTotals (db.products.filter (fun p => p.is_active)) input.items 0 0 with
    | .error e => .error e
    | .ok (totalAmount, totalWeight) =>
      let shippingCost : Int := max 10 (ceilKg totalWeight * 5)
      let finalTotal := totalAmount + shippingCost
      let order : Order :=
        { id := newOrderId
          user_id := input.user_id
          order_number := orderNumber
          status := .pending
          total_amount := finalTotal
          shipping_cost := shippingCost
          shipping_tracking_number := none
          created_at := now }
      let db1 : DB := { db with orders := db.orders ++ [order] }
      .ok (applyOrderItems (db.products.filter (fun p => p.is_active)) newOrderId input.items db1,
           order)

/-- The stock-restore loop of `cancelOrder`: re-reads the current stock of
each item's product and adds the item quantity. The source destructures the
single row of the product select; a missing product would be a runtime
`TypeError`, modelled as an error. -/
def restoreStock : List OrderItem → List Product → Except String (List Product)
  | [], ps => .ok ps
  | it :: rest, ps =>
    match ps.find? (fun p => p.id == it.product_id) with
    | none => .error "TypeError: product row missing"
    | some p =>
      restoreStock rest (updateStockList ps it.product_id (p.stock_quantity + it.quantity))

/-- `cancelOrder` (src/unnamed/part_002): only pending orders owned by the
user are cancelled; stock of every order item is restored and the status
set to `cancelled`. -/
def cancelOrder (db : DB) (orderId userId : Nat) : Except String (DB × Order) :=
  match db.orders.find? (fun o => o.id == orderId && o.user_id == userId) with
  | none =>
    .error ("Order with id " ++ toString orderId ++ " not found or does not belong to user")
  | some ord =>
    if ord.status = OrderStatus.pending then
      match restoreStock (db.orderItems.filter (fun it => it.order_id == orderId)) db.products with
      | .error e => .error e
      | .ok prods =>
        let orders' := db.orders.map
          (fun o => if o.id == orderId then { o with status := OrderStatus.cancelled } else o)
        .ok ({ db with products := prods, orders := orders' },
             { ord with status := OrderStatus.cancelled })
    else
      .error ("Cannot cancel order with status other than pending")

/-- `updateOrderStatus` (src/unnamed/part_002): overwrites the status (and
optionally the tracking number) of an existing order, with no check on the
transition. -/
def updateOrderStatus (db : DB) (input : UpdateOrderStatusInput) :
    Except String (DB × Order) :=
  match db.orders.find? (fun o => o.id == input.id) with
  | none => .error ("Order with id " ++ toString input.id ++ " not found")
  | some ord =>
    let upd := fun (o : Order) =>
      { o with
        status := input.status
        shipping_tracking_number :=
          match input.shipping_tracking_number with
          | none => o.shipping_tracking_number
          | some t => t }
    let orders' := db.orders.map (fun o => if o.id == input.id then upd o else o)
    .ok ({ db with orders := orders' }, upd ord)

/-- Filter applied by `getOrders` (`user_id` when present, `status` when
present — enum strings are always truthy). -/
def matchesOrderFilter (input : Option GetOrdersInput) (o : Order) : Bool :=
  (match input.bind (fun i => i.user_id) with
   | none => true
   | some u => o.user_id == u) &&
  (match input.bind (fun i => i.status) with
   | none => true
   | some s => decide (o.status = s))

/-- Insertion into a list kept in descending `created_at` order. -/
def insertByCreatedDesc (o : Order) : List Order → List Order
  | [] => [o]
  | x :: xs =>
    if x.created_at < o.created_at then o :: x :: xs else x :: insertByCreatedDesc o xs

/-- `ORDER BY created_at DESC`. -/
def sortByCreatedDesc : List Order → List Order
  | [] => []
  | x :: xs => insertByCreatedDesc x (sortByCreatedDesc xs)

/-- Result shape of `getOrders` (`{orders, total, page, limit}`). -/
structure GetOrdersResult where
  orders : List Order
  total : Nat
  page : Int
  limit : Int
deriving DecidableEq, Repr

/-- `getOrders` (src/unnamed/part_002): filter, count, order by
`created_at` descending, then `LIMIT limit OFFSET (page-1)*limit`. -/
def getOrders (db : DB) (input : Option GetOrdersInput) : GetOrdersResult :=
  let page := jsOr (input.bind (fun i => i.page)) 1
  let limit := jsOr (input.bind (fun i => i.limit)) 10
  let matched := db.orders.filter (matchesOrderFilter input)
  { orders := ((sortByCreatedDesc matched).drop ((page - 1) * limit).toNat).take limit.toNat
    total := matched.length
    page := page
    limit := limit }

/-- `getOrderItems` (src/unnamed/part_002): plain select of the order's
items, returned as a bare array. -/
def getOrderItems (db : DB) (orderId : Nat) : List OrderItem :=
  db.orderItems.filter (fun it => it.order_id == orderId)

/-- Filter applied by `getProducts` (`category_id` when present, `search`
when truthy — the empty string is falsy —, `is_active` when present).
`ILIKE` on the nullable description column does not match NULL. -/
def matchesProductFilter (input : Option GetProductsInput) (p : Product) : Bool :=
  (match input.bind (fun i => i.category_id) with
   | none => true
   | some c => p.category_id == c) &&
  (match input.bind (fun i => i.search) with
   | none => true
   | some s =>
     if s = "" then true
     else
       ilike p.name s ||
       (match p.description with
        | none => false
        | some d => ilike d s)) &&
  (match input.bind (fun i => i.is_active) with
   | none => true
   | some b => p.is_active == b)

/-- Result shape of `getProducts` (`{products, total, page, limit}`). -/
structure GetProductsResult where
  products : List Product
  total : Nat
  page : Int
  limit : Int
deriving DecidableEq, Repr

/-- `getProducts` (src/server/src/handlers/products.ts): filter, paginate
(no ordering clause), and count the filtered rows. -/
def getProducts (db : DB) (input : Option GetProductsInput) : GetProductsResult :=
  let page := jsOr (input.bind (fun i => i.page)) 1
  let limit := jsOr (input.bind (fun i => i.limit)) 10
  let matched := db.products.filter (matchesProductFilter input)
  { products := (matched.drop ((page - 1) * limit).toNat).take limit.toNat
    total := matched.length
    page := page
    limit := limit }

/-- `processPayment` (src/unnamed/part_006): validates the order, rejects a
second payment for the same order, then inserts a pending payment for the
order total. `newPaymentId` is the serial key and `txnId` the generated
mock gateway transaction id. -/
def processPayment (db : DB) (input : ProcessPaymentInput)
    (newPaymentId : Nat) (txnId : String) : Except String (DB × Payment) :=
  match db.orders.find? (fun o => o.id == input.order_id) with
  | none => .error ("Order with ID " ++ toString input.order_id ++ " not found")
  | some order =>
    if (db.payments.filter (fun p => p.order_id == input.order_id)).isEmpty then
      let payment : Payment :=
        { id := newPaymentId
          order_id := input.order_id
          payment_method := input.payment_method
          payment_status := .pending
          amount := order.total_amount
          midtrans_transaction_id := some txnId
          midtrans_payment_type := some input.payment_method
          paid_at := none }
      .ok ({ db with payments := db.payments ++ [payment] }, payment)
    else
      .error ("Payment already exists for order " ++ toString input.order_id)

/-- The gateway-status switch of `handlePaymentNotification`; every
unrecognised (or absent) `transaction_status` falls to the default branch,
which is `pending`. -/
def mapTransactionStatus : Option String → PaymentStatus
  | none => .pending
  | some s =>
    if s = "capture" ∨ s = "settlement" then .paid
    else if s = "pending" then .pending
    else if s = "cancel" ∨ s = "expire" then .cancelled
    else if s = "deny" ∨ s = "failure" then .failed
    else .pending

/-- The writes performed by `handlePaymentNotification` once the payment is
found: overwrite the payment's status, payment type (kept when the
notification's is falsy) and `paid_at` (now when paid, NULL otherwise), and
mark the order paid on success. -/
def notifUpdate (db : DB) (payment : Payment) (st : PaymentStatus)
    (ptype : Option String) (now : Nat) : DB :=
  { db with
    payments := db.payments.map
      (fun p =>
        if p.id == payment.id then
          { p with
            payment_status := st
            midtrans_payment_type := jsOrStr ptype p.midtrans_payment_type
            paid_at := if st = PaymentStatus.paid then some now else none }
        else p)
    orders :=
      if st = PaymentStatus.paid then
        db.orders.map
          (fun o => if o.id == payment.order_id then { o with status := OrderStatus.paid } else o)
      else db.orders }

/-- `handlePaymentNotification` (src/unnamed/part_006): looks the payment up
by gateway transaction id (a falsy id is rejected), maps the gateway status
and applies the writes. -/
def handlePaymentNotification (db : DB) (n : Notification) (now : Nat) :
    Except String (DB × Bool) :=
  match n.transaction_id with
  | none => .error "Missing transaction_id in notification"
  | some tid =>
    if tid = "" then .error "Missing transaction_id in notification"
    else
      match db.payments.find? (fun p => decide (p.midtrans_transaction_id = some tid)) with
      | none => .error ("Payment not found for transaction ID: " ++ tid)
      | some payment =>
        .ok (notifUpdate db payment (mapTransactionStatus n.transaction_status)
              n.payment_type now, true)

/-- `refundPayment` (src/unnamed/part_006): only paid payments can be
refunded; `refundAmount = amount || paymentAmount` (JS: `0` is falsy), a
refund above the payment amount is rejected, and a full refund flips the
payment to `cancelled`. `nowMs` feeds the generated refund id. -/
def refundPayment (db : DB) (paymentId : Nat) (amount : Option Int)
    (nowMs : Nat) : Except String (DB × String) :=
  match db.payments.find? (fun p => p.id == paymentId) with
  | none => .error ("Payment with ID " ++ toString paymentId ++ " not found")
  | some payment =>
    if payment.payment_status = PaymentStatus.paid then
      let paymentAmount := payment.amount
      let refundAmount :=
        match amount with
        | none => paymentAmount
        | some a => if a = 0 then paymentAmount else a
      if refundAmount > paymentAmount then
        .error "Refund amount cannot exceed payment amount"
      else
        let refundId := "REF-" ++ toString nowMs ++ "-" ++ toString paymentId
        let pays :=
          if refundAmount = paymentAmount then
            db.payments.map
              (fun p =>
                if p.id == paymentId then { p with payment_status := PaymentStatus.cancelled } else p)
          else db.payments
        .ok ({ db with payments := pays }, refundId)
    else
      .error "Cannot refund a payment that is not paid"

/-- The mock city table of src/server/src/handlers/shipping.ts: id and
province (the city name is never branched on by the cost logic). -/
structure City where
  city_id : Nat
  province : String
deriving DecidableEq, Repr

/-- `CITIES` (src/server/src/handlers/shipping.ts). -/
def CITIES : List City :=
  [ ⟨1, "DKI Jakarta"⟩, ⟨2, "DKI Jakarta"⟩, ⟨3, "DKI Jakarta"⟩, ⟨4, "DKI Jakarta"⟩,
    ⟨5, "DKI Jakarta"⟩, ⟨6, "Jawa Barat"⟩, ⟨7, "Jawa Barat"⟩, ⟨8, "Banten"⟩,
    ⟨9, "Jawa Barat"⟩, ⟨10, "Jawa Barat"⟩, ⟨11, "Jawa Timur"⟩, ⟨12, "Sumatera Utara"⟩,
    ⟨13, "Jawa Tengah"⟩, ⟨14, "Sulawesi Selatan"⟩, ⟨15, "Sumatera Selatan"⟩,
    ⟨16, "Kepulauan Riau"⟩, ⟨17, "Riau"⟩, ⟨18, "Lampung"⟩, ⟨19, "Sumatera Barat"⟩,
    ⟨20, "Jawa Timur"⟩, ⟨21, "Kalimantan Timur"⟩, ⟨22, "Kalimantan Timur"⟩,
    ⟨23, "Kalimantan Selatan"⟩, ⟨24, "Kalimantan Barat"⟩, ⟨25, "Bali"⟩,
    ⟨26, "Sulawesi Utara"⟩, ⟨27, "Maluku"⟩, ⟨28, "Papua"⟩,
    ⟨29, "Nusa Tenggara Timur"⟩, ⟨30, "Nusa Tenggara Barat"⟩ ]

/-- Codes of `COURIERS` (src/server/src/handlers/shipping.ts). -/
def COURIER_CODES : List String :=
  ["jne", "pos", "tiki", "anteraja", "jnt", "sicepat", "ninja", "lion"]

/-- A courier code the shipping handlers accept. -/
def supportedCourier (c : String) : Bool :=
  COURIER_CODES.any (fun code => code == c)

/-- Province groups used by `getDistanceZone`. -/
def javaBaliProvinces : List String :=
  ["DKI Jakarta", "Jawa Barat", "Jawa Tengah", "Jawa Timur", "DI Yogyakarta", "Banten", "Bali"]

/-- Sumatra province group. -/
def sumatraProvinces : List String :=
  ["Sumatera Utara", "Sumatera Barat", "Sumatera Selatan", "Riau", "Kepulauan Riau",
   "Jambi", "Bengkulu", "Lampung", "Aceh", "Bangka Belitung"]

/-- Kalimantan province group. -/
def kalimantanProvinces : List String :=
  ["Kalimantan Barat", "Kalimantan Tengah", "Kalimantan Selatan", "Kalimantan Timur",
   "Kalimantan Utara"]

/-- Sulawesi province group. -/
def sulawesiProvinces : List String :=
  ["Sulawesi Utara", "Sulawesi Tengah", "Sulawesi Selatan", "Sulawesi Tenggara",
   "Sulawesi Barat", "Gorontalo"]

/-- `getDistanceZone` (src/server/src/handlers/shipping.ts). -/
def getDistanceZone (originCityId destinationCityId : Nat) : Int :=
  match CITIES.find? (fun c => c.city_id == originCityId),
        CITIES.find? (fun c => c.city_id == destinationCityId) with
  | some originCity, some destCity =>
    if originCityId == destinationCityId then 1
    else if originCity.province = destCity.province then 2
    else if javaBaliProvinces.contains originCity.province &&
            javaBaliProvinces.contains destCity.province then 3
    else if sumatraProvinces.contains originCity.province &&
            sumatraProvinces.contains destCity.province then 4
    else if kalimantanProvinces.contains originCity.province &&
            kalimantanProvinces.contains destCity.province then 5
    else if sulawesiProvinces.contains originCity.province &&
            sulawesiProvinces.contains destCity.province then 6
    else 7
  | _, _ => 7

/-- One `{service, cost, etd}` entry. -/
structure CostEntry where
  service : String
  cost : Int
  etd : String
deriving DecidableEq, Repr

/-- `baseCost` of `calculateCourierCost`: weight rounded up to whole
kilograms, in rupiah per kg (it is only ever applied to a validated
positive weight). -/
def baseCostOf (weight : Int) : Int := ceilKg weight * 1000

/-- Renders an etd range such as `"2-4 hari"`. -/
def etdRange (lo hi : Int) : String := toString lo ++ "-" ++ toString hi ++ " hari"

/-- `calculateCourierCost` (src/server/src/handlers/shipping.ts): the fixed
per-courier-service rate table. -/
def calculateCourierCost (courier : String) (weight : Int) (zone : Int) :
    List CostEntry :=
  match courier with
  | "jne" =>
    [ ⟨"REG", baseCostOf weight * zone * 9, etdRange (zone + 1) (zone + 3)⟩,
      ⟨"YES", baseCostOf weight * zone * 15, etdRange (max 1 (zone - 1)) (zone + 1)⟩,
      ⟨"OKE", baseCostOf weight * zone * 7, etdRange (zone + 2) (zone + 5)⟩ ]
  | "pos" =>
    [ ⟨"Pos Reguler", baseCostOf weight * zone * 7, etdRange (zone + 2) (zone + 4)⟩,
      ⟨"Pos Express", baseCostOf weight * zone * 12, etdRange zone (zone + 2)⟩ ]
  | "tiki" =>
    [ ⟨"REG", baseCostOf weight * zone * 8, etdRange (zone + 1) (zone + 3)⟩,
      ⟨"ONS", baseCostOf weight * zone * 14, etdRange (max 1 (zone - 1)) (zone + 1)⟩ ]
  | "jnt" =>
    [ ⟨"EZ", baseCostOf weight * zone * 6, etdRange (zone + 2) (zone + 4)⟩,
      ⟨"REG", baseCostOf weight * zone * 8, etdRange (zone + 1) (zone + 3)⟩ ]
  | "sicepat" =>
    [ ⟨"REG", baseCostOf weight * zone * 8, etdRange (zone + 1) (zone + 3)⟩,
      ⟨"BEST", baseCostOf weight * zone * 12, etdRange zone (zone + 2)⟩ ]
  | "anteraja" =>
    [ ⟨"REG", baseCostOf weight * zone * 7, etdRange (zone + 1) (zone + 4)⟩,
      ⟨"NEXT DAY", baseCostOf weight * zone * 18, "1 hari"⟩ ]
  | "ninja" =>
    [ ⟨"REG", baseCostOf weight * zone * 9, etdRange (zone + 1) (zone + 3)⟩ ]
  | "lion" =>
    [ ⟨"REG", baseCostOf weight * zone * 10, etdRange (zone + 1) (zone + 4)⟩,
      ⟨"CARGO", baseCostOf weight * zone * 6, etdRange (zone + 3) (zone + 7)⟩ ]
  | _ =>
    [ ⟨"REG", baseCostOf weight * zone * 10, etdRange (zone + 1) (zone + 4)⟩ ]

/-- `calculateShippingCost` (src/server/src/handlers/shipping.ts): rejects a
non-positive weight and an unsupported courier, then prices the courier's
services for the origin/destination distance zone. -/
def calculateShippingCost (input : CalculateShippingInput) :
    Except String (List CostEntry) :=
  if input.weight ≤ 0 then .error "Weight must be positive"
  else if supportedCourier input.courier then
    .ok (calculateCourierCost input.courier input.weight
          (getDistanceZone input.origin_city_id input.destination_city_id))
  else .error ("Unsupported courier: " ++ input.courier)

/-- `createCustomerAddressInputSchema`, restricted to the fields the
default-address logic branches on. -/
structure CreateAddressInput where
  user_id : Nat
  is_default : Bool
deriving DecidableEq, Repr

/-- Make one address the user's default: clear the default flag of every
other address of the user and set it on the given address. -/
def setUserDefault (addrs : List CustomerAddress) (userId addressId : Nat) :
    List CustomerAddress :=
  addrs.map
    (fun a =>
      if a.user_id == userId then { a with is_default := (a.id == addressId) } else a)

/-- Modelled from the spec: the body of `setDefaultAddress` in
src/server/src/handlers/addresses.ts is a placeholder declaration ("Real
code should be implemented here ... set an address as default and unset
others for the user"); per the spec, setting an address `is_default`
"unsets all other addresses for that user", the invariant being "enforced
by unconditionally clearing other defaults before setting one". -/
def setDefaultAddress (db : DB) (addressId userId : Nat) : DB :=
  { db with addresses := setUserDefault db.addresses userId addressId }

/-- Modelled from the spec: the body of `createAddress` in
src/server/src/handlers/addresses.ts is a placeholder declaration ("If
is_default is true, should set other addresses for this user to false");
the new row is inserted with the requested flag after other defaults of the
user are cleared. `newId` is the serial key. -/
def createAddress (db : DB) (input : CreateAddressInput) (newId : Nat) : DB :=
  { db with
    addresses :=
      (if input.is_default then
        db.addresses.map
          (fun a => if a.user_id == input.user_id then { a with is_default := false } else a)
      else db.addresses)
      ++ [{ id := newId, user_id := input.user_id, is_default := input.is_default }] }

/-- Modelled from the spec: the body of `updateAddress` in
src/server/src/handlers/addresses.ts is a placeholder declaration ("If
is_default is being set to true, should set other addresses for this user
to false"); restricted to the `is_default` field (absent: unchanged), with
an error on a missing address. -/
def updateAddress (db : DB) (addrId : Nat) (isDefault : Option Bool) :
    Except String DB :=
  match db.addresses.find? (fun a => a.id == addrId) with
  | none => .error "Address not found"
  | some addr =>
    match isDefault with
    | none => .ok db
    | some b =>
      if b then
        .ok { db with addresses := setUserDefault db.addresses addr.user_id addrId }
      else
        .ok { db with
              addresses := db.addresses.map
                (fun a => if a.id == addrId then { a with is_default := false } else a) }

/-- Number of default addresses a user has. -/
def defaultCount (addrs : List CustomerAddress) (uid : Nat) : Nat :=
  addrs.countP (fun a => a.user_id == uid && a.is_default)

/-- The single-default-per-user invariant. -/
def atMostOneDefault (db : DB) : Prop :=
  ∀ uid : Nat, defaultCount db.addresses uid ≤ 1

/-- The linear lifecycle stated by the spec ("pending→paid→processing→
shipped→delivered, or pending→cancelled"), written from the spec's words to
compare against `updateOrderStatus`. -/
def specAllowedTransition : OrderStatus → OrderStatus → Bool
  | .pending, .paid => true
  | .paid, .processing => true
  | .processing, .shipped => true
  | .shipped, .delivered => true
  | .pending, .cancelled => true
  | _, _ => false

/-- Quantity of the last order item for a product, as written by the
`createOrder` write loop (later writes overwrite earlier ones). -/
def lastQtyFor (items : List OrderItemInput) (pid : Nat) : Option Int :=
  match items with
  | [] => none
  | it :: rest =>
    match lastQtyFor rest pid with
    | some q => some q
    | none => if it.product_id == pid then some it.quantity else none

/-- Total quantity of a product over the items of a create-order input. -/
def sumQtyFor (items : List OrderItemInput) (pid : Nat) : Int :=
  ((items.filter (fun it => it.product_id == pid)).map (fun it => it.quantity)).sum

/-- Total quantity of a product over stored order items. -/
def sumQtyItems (items : List OrderItem) (pid : Nat) : Int :=
  ((items.filter (fun it => it.product_id == pid)).map (fun it => it.quantity)).sum

/-! ### General list lemmas -/

theorem find?_map_comm {α : Type} (q : α → Bool) (g : α → α)
    (hq : ∀ a, q (g a) = q a) (l : List α) :
    (l.map g).find? q = (l.find? q).map g := by
  induction l with
  | nil => rfl
  | cons h t ih =>
    by_cases hk : q h
    · rw [List.map_cons, List.find?_cons_of_pos _ (by rw [hq]; exact hk),
        List.find?_cons_of_pos _ hk]
      rfl
    · rw [List.map_cons, List.find?_cons_of_neg _ (by rw [hq]; simpa using hk),
        List.find?_cons_of_neg _ hk, ih]

theorem find?_append_of_none {α : Type} {l1 l2 : List α} {p : α → Bool}
    (h : l1.find? p = none) : (l1 ++ l2).find? p = l2.find? p := by
  induction l1 with
  | nil => rfl
  | cons x t ih =>
    rw [List.find?_eq_none] at h
    rw [List.cons_append, List.find?_cons_of_neg _ (h x (List.mem_cons_self x t)),
      ih (List.find?_eq_none.mpr (fun a ha => h a (List.mem_cons_of_mem x ha)))]

theorem countP_le_one_of_nodup_key {α : Type} (l : List α) (key : α → Nat) (k : Nat)
    (hnd : (l.map key).Nodup) (q : α → Bool) (hq : ∀ a, q a → key a = k) :
    l.countP q ≤ 1 := by
  induction l with
  | nil => simp
  | cons h t ih =>
    rw [List.map_cons, List.nodup_cons] at hnd
    by_cases hqh : q h
    · have ht : t.countP q = 0 := by
        rw [List.countP_eq_zero]
        intro a ha hqa
        exact hnd.1 (by rw [hq h hqh, ← hq a hqa]; exact List.mem_map_of_mem key ha)
      rw [List.countP_cons_of_pos _ _ hqh, ht]
    · rw [List.countP_cons_of_neg _ _ hqh]
      exact ih hnd.2

theorem find?_filter_of_nodup_key {α : Type} (l : List α) (key : α → Nat)
    (A : α → Bool) (k : Nat) (p : α)
    (hnd : (l.map key).Nodup)
    (h : (l.filter A).find? (fun x => key x == k) = some p) :
    l.find? (fun x => key x == k) = some p := by
  have hp : key p = k := by simpa using List.find?_some h
  have hmem : p ∈ l := List.mem_of_mem_filter (List.mem_of_find?_eq_some h)
  have hsome : (l.find? (fun x => key x == k)).isSome :=
    List.find?_isSome.mpr ⟨p, hmem, by simpa using hp⟩
  obtain ⟨r, hr⟩ := Option.isSome_iff_exists.mp hsome
  have hrk : key r = k := by simpa using List.find?_some hr
  have hrmem : r ∈ l := List.mem_of_find?_eq_some hr
  have : r = p := List.inj_on_of_nodup_map hnd hrmem hmem (by rw [hrk, hp])
  rw [hr, this]

/-! ### Stock bookkeeping lemmas -/

theorem stockOf_updateStockList_self (ps : List Product) (pid : Nat) (v : Int) :
    stockOf (updateStockList ps pid v) pid = (stockOf ps pid).map (fun _ => v) := by
  induction ps with
  | nil => rfl
  | cons p t ih =>
    by_cases h : p.id = pid
    · simp [stockOf, updateStockList, List.find?_cons, h]
    · simp only [stockOf, updateStockList, List.map_cons] at *
      have hhead : (if p.id == pid then { p with stock_quantity := v } else p) = p := by
        simp [h]
      rw [hhead, List.find?_cons_of_neg _ (by simp [h]), List.find?_cons_of_neg _ (by simp [h])]
      exact ih

theorem stockOf_updateStockList_ne (ps : List Product) (pid pid' : Nat) (v : Int)
    (hne : pid' ≠ pid) :
    stockOf (updateStockList ps pid v) pid' = stockOf ps pid' := by
  induction ps with
  | nil => rfl
  | cons p t ih =>
    simp only [stockOf, updateStockList, List.map_cons] at *
    by_cases h2 : p.id = pid'
    · have h : ¬ p.id = pid := by rw [h2]; exact hne
      have hhead : (if p.id == pid then { p with stock_quantity := v } else p) = p := by
        simp [h]
      rw [hhead, List.find?_cons_of_pos _ (by simp [h2]), List.find?_cons_of_pos _ (by simp [h2])]
    · by_cases h : p.id = pid
      · have hne2 : ¬ pid = pid' := fun hh => h2 (h.trans hh)
        rw [List.find?_cons_of_neg _ (by simp [h, hne2]), List.find?_cons_of_neg _ (by simp [h2])]
        exact ih
      · have hhead : (if p.id == pid then { p with stock_quantity := v } else p) = p := by
          simp [h]
        rw [hhead, List.find?_cons_of_neg _ (by simp [h2]), List.find?_cons_of_neg _ (by simp [h2])]
        exact ih

/-! ### The `createOrder` write loop -/

theorem applyOrderItems_cons (snap : List Product) (oid : Nat) (it : OrderItemInput)
    (rest : List OrderItemInput) (db : DB) :
    applyOrderItems snap oid (it :: rest) db =
      applyOrderItems snap oid rest
        { db with
          orderItems := db.orderItems ++ [orderItemOf snap oid it]
          products := updateStockList db.products it.product_id
            (snapStock snap it.product_id - it.quantity) } := rfl

theorem applyOrderItems_orders (snap : List Product) (oid : Nat)
    (items : List OrderItemInput) (db : DB) :
    (applyOrderItems snap oid items db).orders = db.orders := by
  induction items generalizing db with
  | nil => rfl
  | cons it rest ih => rw [applyOrderItems_cons]; exact ih _

theorem applyOrderItems_orderItems (snap : List Product) (oid : Nat)
    (items : List OrderItemInput) (db : DB) :
    (applyOrderItems snap oid items db).orderItems =
      db.orderItems ++ items.map (orderItemOf snap oid) := by
  induction items generalizing db with
  | nil => simp [applyOrderItems]
  | cons it rest ih =>
    rw [applyOrderItems_cons, ih]
    simp

theorem applyOrderItems_stockOf (snap : List Product) (oid : Nat)
    (items : List OrderItemInput) (db : DB) (pid : Nat) :
    stockOf (applyOrderItems snap oid items db).products pid =
      match lastQtyFor items pid with
      | none => stockOf db.products pid
      | some q => (stockOf db.products pid).map (fun _ => snapStock snap pid - q) := by
  induction items generalizing db with
  | nil => rfl
  | cons it rest ih =>
    rw [applyOrderItems_cons]
    by_cases hpid : it.product_id = pid
    · subst hpid
      cases hrest : lastQtyFor rest it.product_id with
      | some q =>
        rw [ih]
        simp only [lastQtyFor, hrest]
        rw [stockOf_updateStockList_self]
        cases stockOf db.products it.product_id <;> simp
      | none =>
        rw [ih]
        simp only [lastQtyFor, hrest]
        rw [stockOf_updateStockList_self]
        simp
    · have hne : pid ≠ it.product_id := fun hh => hpid hh.symm
      rw [ih]
      simp only [lastQtyFor]
      cases hrest : lastQtyFor rest pid with
      | some q =>
        simp only [stockOf_updateStockList_ne _ _ _ _ hne]
      | none =>
        simp only [stockOf_updateStockList_ne _ _ _ _ hne]
        simp [hpid]

theorem lastQtyFor_eq_none {items : List OrderItemInput} {pid : Nat}
    (h : ∀ j ∈ items, j.product_id ≠ pid) : lastQtyFor items pid = none := by
  induction items with
  | nil => rfl
  | cons it rest ih =>
    simp only [lastQtyFor]
    rw [ih (fun j hj => h j (List.mem_cons_of_mem it hj))]
    simp [h it (List.mem_cons_self it rest)]

theorem filter_singleton_of_nodup {items : List OrderItemInput}
    (hnd : (items.map (fun it => it.product_id)).Nodup) {it : OrderItemInput}
    (hmem : it ∈ items) :
    items.filter (fun j => j.product_id == it.product_id) = [it] := by
  induction items with
  | nil => cases hmem
  | cons h t ih =>
    rw [List.map_cons, List.nodup_cons] at hnd
    rcases List.mem_cons.mp hmem with heq | hmem'
    · subst heq
      have ht : t.filter (fun j => j.product_id == it.product_id) = [] := by
        rw [List.filter_eq_nil_iff]
        intro j hj hcontra
        have hj2 : j.product_id = it.product_id := by simpa using hcontra
        exact hnd.1 (by rw [← hj2]; exact List.mem_map_of_mem _ hj)
      rw [List.filter_cons_of_pos (by simp), ht]
    · have hne : ¬ h.product_id = it.product_id := by
        intro hc
        exact hnd.1 (by rw [hc]; exact List.mem_map_of_mem _ hmem')
      rw [List.filter_cons_of_neg (by simpa using hne)]
      exact ih hnd.2 hmem'

theorem lastQtyFor_of_nodup {items : List OrderItemInput}
    (hnd : (items.map (fun it => it.product_id)).Nodup) {it : OrderItemInput}
    (hmem : it ∈ items) :
    lastQtyFor items it.product_id = some it.quantity := by
  induction items with
  | nil => cases hmem
  | cons h t ih =>
    rw [List.map_cons, List.nodup_cons] at hnd
    rcases List.mem_cons.mp hmem with heq | hmem'
    · subst heq
      have ht : lastQtyFor t it.product_id = none := by
        apply lastQtyFor_eq_none
        intro j hj hc
        exact hnd.1 (by rw [← hc]; exact List.mem_map_of_mem _ hj)
      simp [lastQtyFor, ht]
    · have := ih hnd.2 hmem'
      simp [lastQtyFor, this]

theorem sumQtyFor_of_nodup {items : List OrderItemInput}
    (hnd : (items.map (fun it => it.product_id)).Nodup) {it : OrderItemInput}
    (hmem : it ∈ items) :
    sumQtyFor items it.product_id = it.quantity := by
  rw [sumQtyFor, filter_singleton_of_nodup hnd hmem]
  simp

theorem computeTotals_ok_find {snap : List Product} {items : List OrderItemInput}
    {amt wt : Int} {res : Int × Int}
    (h : computeTotals snap items amt wt = .ok res) :
    ∀ it ∈ items, ∃ p, snap.find? (fun x => x.id == it.product_id) = some p := by
  induction items generalizing amt wt with
  | nil => intro it hit; cases hit
  | cons j rest ih =>
    intro it hit
    rw [computeTotals] at h
    split at h
    · exact absurd h (by simp)
    · rename_i p hf
      split at h
      · exact absurd h (by simp)
      · rcases List.mem_cons.mp hit with heq | hmem'
        · subst heq; exact ⟨p, hf⟩
        · exact ih h it hmem'

theorem snapStock_eq {snap : List Product} {pid : Nat} {p : Product}
    (h : snap.find? (fun x => x.id == pid) = some p) :
    snapStock snap pid = p.stock_quantity := by
  rw [snapStock, h]

theorem stockOf_eq {ps : List Product} {pid : Nat} {p : Product}
    (h : ps.find? (fun x => x.id == pid) = some p) :
    stockOf ps pid = some p.stock_quantity := by
  rw [stockOf, h, Option.map]

/-- What a successful `createOrder` produced, read off the definition. -/
theorem createOrder_ok_elim {db : DB} {input : CreateOrderInput} {now : Nat}
    {onum : String} {oid : Nat} {db' : DB} {ord : Order}
    (h : createOrder db input now onum oid = .ok (db', ord)) :
    ∃ A W : Int,
      computeTotals (db.products.filter (fun p => p.is_active)) input.items 0 0 = .ok (A, W) ∧
      ord = { id := oid, user_id := input.user_id, order_number := onum,
              status := .pending,
              total_amount := A + max 10 (ceilKg W * 5),
              shipping_cost := max 10 (ceilKg W * 5),
              shipping_tracking_number := none, created_at := now } ∧
      db' = applyOrderItems (db.products.filter (fun p => p.is_active)) oid input.items
              { db with orders := db.orders ++ [ord] } := by
  rw [createOrder] at h
  split at h
  · exact absurd h (by simp)
  · split at h
    · exact absurd h (by simp)
    · rename_i A W heq
      simp only [Except.ok.injEq, Prod.mk.injEq] at h
      refine ⟨A, W, heq, h.2.symm, ?_⟩
      rw [← h.1, ← h.2]

/-- What a successful `cancelOrder` did, read off the definition. -/
theorem cancelOrder_ok_elim {db : DB} {orderId userId : Nat} {db' : DB} {ord' : Order}
    (h : cancelOrder db orderId userId = .ok (db', ord')) :
    ∃ ord prods,
      db.orders.find? (fun o => o.id == orderId && o.user_id == userId) = some ord ∧
      ord.status = .pending ∧
      restoreStock (db.orderItems.filter (fun it => it.order_id == orderId)) db.products
        = .ok prods ∧
      ord' = { ord with status := .cancelled } ∧
      db'.products = prods ∧
      db'.orders = db.orders.map
        (fun o => if o.id == orderId then { o with status := OrderStatus.cancelled } else o) ∧
      db'.orderItems = db.orderItems := by
  rw [cancelOrder] at h
  split at h
  · exact absurd h (by simp)
  · rename_i ord hf
    split at h
    · rename_i hpend
      split at h
      · exact absurd h (by simp)
      · rename_i prods hrest
        simp only [Except.ok.injEq, Prod.mk.injEq] at h
        exact ⟨ord, prods, hf, hpend, hrest, h.2.symm,
          by rw [← h.1], by rw [← h.1], by rw [← h.1]⟩
    · exact absurd h (by simp)

/-- Effect of the `cancelOrder` restore loop on every product's stock: each
item adds its quantity to the current stock, so the net effect per product
is the sum of the item quantities for that product. -/
theorem restoreStock_stockOf {items : List OrderItem} {ps ps' : List Product}
    (h : restoreStock items ps = .ok ps') (pid : Nat) :
    stockOf ps' pid = (stockOf ps pid).map (fun s => s + sumQtyItems items pid) := by
  induction items generalizing ps with
  | nil =>
    rw [restoreStock] at h
    simp only [Except.ok.injEq] at h
    subst h
    cases stockOf ps pid <;> simp [sumQtyItems]
  | cons it rest ih =>
    rw [restoreStock] at h
    split at h
    · exact absurd h (by simp)
    · rename_i p hf
      have ihh := ih h
      by_cases hpid : it.product_id = pid
      · subst hpid
        rw [ihh, stockOf_updateStockList_self, stockOf_eq hf]
        have hsum : sumQtyItems (it :: rest) it.product_id
            = it.quantity + sumQtyItems rest it.product_id := by
          rw [sumQtyItems, List.filter_cons_of_pos (by simp), List.map_cons, List.sum_cons,
            ← sumQtyItems]
        rw [hsum]
        simp [Int.add_assoc]
      · have hne : pid ≠ it.product_id := fun hh => hpid hh.symm
        rw [ihh, stockOf_updateStockList_ne _ _ _ _ hne]
        have hsum : sumQtyItems (it :: rest) pid = sumQtyItems rest pid := by
          rw [sumQtyItems, List.filter_cons_of_neg (by simpa using hpid), ← sumQtyItems]
        rw [hsum]

/-! ### Sorting lemmas for `getOrders` -/

theorem length_insertByCreatedDesc (o : Order) (l : List Order) :
    (insertByCreatedDesc o l).length = l.length + 1 := by
  induction l with
  | nil => rfl
  | cons x xs ih =>
    rw [insertByCreatedDesc]
    split
    · simp
    · simp [ih]

theorem length_sortByCreatedDesc (l : List Order) :
    (sortByCreatedDesc l).length = l.length := by
  induction l with
  | nil => rfl
  | cons x xs ih =>
    rw [sortByCreatedDesc, length_insertByCreatedDesc, ih, List.length_cons]

/-! ### More `createOrder`/`cancelOrder` bookkeeping -/

theorem lastQtyFor_none_mem {items : List OrderItemInput} {pid : Nat}
    (h : lastQtyFor items pid = none) : ∀ it ∈ items, it.product_id ≠ pid := by
  induction items with
  | nil => intro it hit; cases hit
  | cons j rest ih =>
    intro it hit
    rw [lastQtyFor] at h
    split at h
    · cases h
    · rename_i hrest
      split at h
      · cases h
      · rename_i hj
        rcases List.mem_cons.mp hit with heq | hmem'
        · subst heq; simpa using hj
        · exact ih hrest it hmem'

theorem lastQtyFor_some_mem {items : List OrderItemInput} {pid : Nat} {q : Int}
    (h : lastQtyFor items pid = some q) :
    ∃ it ∈ items, it.product_id = pid ∧ it.quantity = q := by
  induction items with
  | nil => cases h
  | cons j rest ih =>
    rw [lastQtyFor] at h
    split at h
    · rename_i q' hrest
      cases h
      obtain ⟨it, hmem, hpid, hq⟩ := ih hrest
      exact ⟨it, List.mem_cons_of_mem j hmem, hpid, hq⟩
    · rename_i hrest
      split at h
      · rename_i hj
        cases h
        exact ⟨j, List.mem_cons_self j rest, by simpa using hj, rfl⟩
      · cases h

theorem sumQtyFor_eq_zero {items : List OrderItemInput} {pid : Nat}
    (h : ∀ it ∈ items, it.product_id ≠ pid) : sumQtyFor items pid = 0 := by
  rw [sumQtyFor, List.filter_eq_nil_iff.mpr (fun it hit => by simpa using h it hit)]
  rfl

theorem sumQtyItems_map (snap : List Product) (oid : Nat)
    (items : List OrderItemInput) (pid : Nat) :
    sumQtyItems (items.map (orderItemOf snap oid)) pid = sumQtyFor items pid := by
  induction items with
  | nil => rfl
  | cons it rest ih =>
    simp only [List.map_cons, sumQtyItems, sumQtyFor] at *
    by_cases hpid : it.product_id = pid
    · rw [List.filter_cons_of_pos (by simp [orderItemOf, hpid]),
        List.filter_cons_of_pos (by simp [hpid]), List.map_cons, List.map_cons,
        List.sum_cons, List.sum_cons, ih]
      rfl
    · rw [List.filter_cons_of_neg (by simp [orderItemOf, hpid]),
        List.filter_cons_of_neg (by simp [hpid]), ih]

/-! ### Payment update lemmas -/

theorem find?_map_set_payment (ps : List Payment) (pid : Nat) (f : Payment → Payment)
    (hf : ∀ p, (f p).id = p.id) :
    (ps.map (fun p => if p.id == pid then f p else p)).find? (fun p => p.id == pid)
      = (ps.find? (fun p => p.id == pid)).map
          (fun p => if p.id == pid then f p else p) :=
  find?_map_comm (fun p => p.id == pid) (fun p => if p.id == pid then f p else p)
    (fun a => by by_cases h : a.id = pid <;> simp [h, hf]) ps

theorem paymentStatusOf_notifUpdate (db : DB) (pay : Payment) (st : PaymentStatus)
    (pt : Option String) (now : Nat) (hmem : pay ∈ db.payments) :
    paymentStatusOf (notifUpdate db pay st pt now).payments pay.id = some st := by
  have hsome : (db.payments.find? (fun p => p.id == pay.id)).isSome :=
    List.find?_isSome.mpr ⟨pay, hmem, by simp⟩
  obtain ⟨r, hr⟩ := Option.isSome_iff_exists.mp hsome
  have hrid : r.id = pay.id := by simpa using List.find?_some hr
  have key := find?_map_set_payment db.payments pay.id
    (fun p =>
      { p with
        payment_status := st
        midtrans_payment_type := jsOrStr pt p.midtrans_payment_type
        paid_at := if st = PaymentStatus.paid then some now else none })
    (fun p => rfl)
  rw [paymentStatusOf]
  simp only [notifUpdate]
  rw [key, hr]
  simp [hrid]

theorem paymentPaidAtOf_notifUpdate (db : DB) (pay : Payment) (st : PaymentStatus)
    (pt : Option String) (now : Nat) (hmem : pay ∈ db.payments) :
    paymentPaidAtOf (notifUpdate db pay st pt now).payments pay.id
      = some (if st = PaymentStatus.paid then some now else none) := by
  have hsome : (db.payments.find? (fun p => p.id == pay.id)).isSome :=
    List.find?_isSome.mpr ⟨pay, hmem, by simp⟩
  obtain ⟨r, hr⟩ := Option.isSome_iff_exists.mp hsome
  have hrid : r.id = pay.id := by simpa using List.find?_some hr
  have key := find?_map_set_payment db.payments pay.id
    (fun p =>
      { p with
        payment_status := st
        midtrans_payment_type := jsOrStr pt p.midtrans_payment_type
        paid_at := if st = PaymentStatus.paid then some now else none })
    (fun p => rfl)
  rw [paymentPaidAtOf]
  simp only [notifUpdate]
  rw [key, hr]
  simp [hrid]

theorem mapTransactionStatus_default {ts : Option String}
    (h : ∀ s, ts = some s →
      s ∉ (["capture", "settlement", "pending", "cancel", "expire", "deny", "failure"] :
            List String)) :
    mapTransactionStatus ts = .pending := by
  cases ts with
  | none => rfl
  | some s =>
    have hs := h s rfl
    simp only [List.mem_cons, List.not_mem_nil, or_false, not_or] at hs
    obtain ⟨h1, h2, h3, h4, h5, h6, h7⟩ := hs
    simp [mapTransactionStatus, h1, h2, h3, h4, h5, h6, h7]

/-! ### Shipping lemmas -/

theorem calculateCourierCost_ne_nil (courier : String) (w z : Int) :
    calculateCourierCost courier w z ≠ [] := by
  unfold calculateCourierCost
  split <;> simp

theorem calculateCourierCost_cost (courier : String) (w z : Int) :
    ∀ c ∈ calculateCourierCost courier w z,
      ∃ rate : Int, c.cost = baseCostOf w * z * rate := by
  intro c hc
  unfold calculateCourierCost at hc
  split at hc <;> fin_cases hc <;> exact ⟨_, rfl⟩

/-! ### Default-address lemmas -/

theorem setUserDefault_clears (addrs : List CustomerAddress) (uId aId : Nat) :
    ∀ a ∈ setUserDefault addrs uId aId,
      a.user_id = uId → a.id ≠ aId → a.is_default = false := by
  intro a ha hu hne
  obtain ⟨x, hx, rfl⟩ := List.mem_map.mp ha
  by_cases hxu : x.user_id = uId
  · have e : (if x.user_id == uId then { x with is_default := (x.id == aId) } else x)
        = { x with is_default := (x.id == aId) } := if_pos (by simpa using hxu)
    rw [e] at hne ⊢
    simpa using hne
  · have e : (if x.user_id == uId then { x with is_default := (x.id == aId) } else x) = x :=
      if_neg (by simpa using hxu)
    rw [e] at hu
    exact absurd hu hxu

theorem defaultCount_setUserDefault_self (addrs : List CustomerAddress) (uId aId : Nat)
    (hnd : (addrs.map (fun a => a.id)).Nodup) :
    defaultCount (setUserDefault addrs uId aId) uId ≤ 1 := by
  rw [defaultCount, setUserDefault, List.countP_map]
  apply countP_le_one_of_nodup_key addrs (fun a => a.id) aId hnd
  intro a ha
  simp only [Function.comp_apply] at ha
  by_cases hxu : a.user_id = uId
  · rw [if_pos (by simpa using hxu)] at ha
    simp only [Bool.and_eq_true, beq_iff_eq] at ha
    exact ha.2
  · rw [if_neg (by simpa using hxu)] at ha
    simp only [Bool.and_eq_true, beq_iff_eq] at ha
    exact absurd ha.1 hxu

theorem defaultCount_setUserDefault_other (addrs : List CustomerAddress) (uId aId uid : Nat)
    (hne : uid ≠ uId) :
    defaultCount (setUserDefault addrs uId aId) uid = defaultCount addrs uid := by
  rw [defaultCount, setUserDefault, List.countP_map, defaultCount]
  apply List.countP_congr
  intro a _
  by_cases hxu : a.user_id = uId
  · have h2 : uId ≠ uid := Ne.symm hne
    simp [hxu, h2]
  · simp [hxu]

theorem applyOrderItems_stockOf_some {snap : List Product} {oid : Nat}
    {items : List OrderItemInput} {db : DB} {pid : Nat} {q : Int}
    (h : lastQtyFor items pid = some q) :
    stockOf (applyOrderItems snap oid items db).products pid
      = (stockOf db.products pid).map (fun _ => snapStock snap pid - q) := by
  rw [applyOrderItems_stockOf, h]

theorem applyOrderItems_stockOf_none {snap : List Product} {oid : Nat}
    {items : List OrderItemInput} {db : DB} {pid : Nat}
    (h : lastQtyFor items pid = none) :
    stockOf (applyOrderItems snap oid items db).products pid = stockOf db.products pid := by
  rw [applyOrderItems_stockOf, h]

/-- Remaining default-address counting lemmas: clearing a user's defaults
zeroes that user's count. -/
theorem defaultCount_clear_self (addrs : List CustomerAddress) (uId : Nat) :
    defaultCount
      (addrs.map (fun a => if a.user_id == uId then { a with is_default := false } else a))
      uId = 0 := by
  rw [defaultCount, List.countP_map, List.countP_eq_zero]
  intro a _
  by_cases hxu : a.user_id = uId <;> simp [hxu]

theorem defaultCount_clear_other (addrs : List CustomerAddress) (uId uid : Nat)
    (hne : uid ≠ uId) :
    defaultCount
      (addrs.map (fun a => if a.user_id == uId then { a with is_default := false } else a))
      uid = defaultCount addrs uid := by
  rw [defaultCount, List.countP_map, defaultCount]
  apply List.countP_congr
  intro a _
  by_cases hxu : a.user_id = uId
  · have h2 : uId ≠ uid := Ne.symm hne
    simp [hxu, h2]
  · simp [hxu]

theorem defaultCount_setFalseById (addrs : List CustomerAddress) (aId uid : Nat) :
    defaultCount
      (addrs.map (fun a => if a.id == aId then { a with is_default := false } else a))
      uid ≤ defaultCount addrs uid := by
  rw [defaultCount, List.countP_map, defaultCount]
  apply List.countP_mono_left
  intro a _
  by_cases hxa : a.id = aId <;> simp [hxa]

/-- The single-payment-per-order invariant. -/
def atMostOnePaymentPerOrder (db : DB) : Prop :=
  ∀ oid : Nat, (db.payments.filter (fun p => p.order_id == oid)).length ≤ 1

/-! ### Concrete fixtures used by counterexamples and witnesses -/

/-- A store with one active product (stock 10) and one address of user 1. -/
def dbDup : DB :=
  { products := [{ id := 1, name := "P", description := none, price := 100,
                   stock_quantity := 10, category_id := 1, weight := 1000, is_active := true }]
    addresses := [{ id := 1, user_id := 1, is_default := true }]
    orders := []
    orderItems := []
    payments := [] }

/-- An order input listing the same product in two items (2 + 3 units). -/
def inpDup : CreateOrderInput :=
  { user_id := 1, shipping_address_id := 1, items := [⟨1, 2⟩, ⟨1, 3⟩] }

/-- An order input with a single item of 2 units. -/
def inpOne : CreateOrderInput :=
  { user_id := 1, shipping_address_id := 1, items := [⟨1, 2⟩] }

/-- The order row `createOrder dbDup inpOne 5 "ORD-A" 1` inserts. -/
def ordOne : Order :=
  { id := 1, user_id := 1, order_number := "ORD-A", status := .pending,
    total_amount := 210, shipping_cost := 10, shipping_tracking_number := none,
    created_at := 5 }

/-- The store after `createOrder dbDup inpOne 5 "ORD-A" 1`. -/
def dbOne : DB :=
  { products := [{ id := 1, name := "P", description := none, price := 100,
                   stock_quantity := 8, category_id := 1, weight := 1000, is_active := true }]
    addresses := [{ id := 1, user_id := 1, is_default := true }]
    orders := [ordOne]
    orderItems := [{ order_id := 1, product_id := 1, quantity := 2, unit_price := 100,
                     total_price := 200 }]
    payments := [] }

/-- The store after cancelling that order again. -/
def dbOneBack : DB :=
  { products := [{ id := 1, name := "P", description := none, price := 100,
                   stock_quantity := 10, category_id := 1, weight := 1000, is_active := true }]
    addresses := [{ id := 1, user_id := 1, is_default := true }]
    orders := [{ ordOne with status := .cancelled }]
    orderItems := [{ order_id := 1, product_id := 1, quantity := 2, unit_price := 100,
                     total_price := 200 }]
    payments := [] }

/-! ### C1 -/

/-- C1 does not hold as stated: with the same product in two items
(2 + 3 units of a stock-10 product), `createOrder` succeeds but leaves
stock 7, not 10 − 5 — every write uses the pre-loop snapshot, so the last
item's write wins. -/
theorem createOrder_snapshot_counterexample :
    (match createOrder dbDup inpDup 5 "ORD-X" 1 with
     | .ok (db1, _) => stockOf db1.products 1
     | .error _ => none) = some 7 ∧
    sumQtyFor inpDup.items 1 = 5 ∧
    stockOf dbDup.products 1 = some 10 ∧
    ¬ ((7 : Int) = 10 - 5) := by decide

/-- C1 (amended): for every successful `createOrder` call in which each
product appears in at most one item (and product ids are unique), every
product referenced by the order's items ends with its previous stock minus
the total ordered quantity of that product summed across all items. -/
theorem createOrder_stock_decrement_distinct
    (db : DB) (input : CreateOrderInput) (now : Nat) (onum : String) (oid : Nat)
    (db' : DB) (ord : Order)
    (hprod : (db.products.map (fun p => p.id)).Nodup)
    (hitems : (input.items.map (fun it => it.product_id)).Nodup)
    (h : createOrder db input now onum oid = .ok (db', ord)) :
    ∀ it ∈ input.items, ∃ s : Int,
      stockOf db.products it.product_id = some s ∧
      stockOf db'.products it.product_id
        = some (s - sumQtyFor input.items it.product_id) := by
  obtain ⟨A, W, htot, hord, hdb⟩ := createOrder_ok_elim h
  intro it hit
  obtain ⟨p, hfp⟩ := computeTotals_ok_find htot it hit
  have hfull : db.products.find? (fun x => x.id == it.product_id) = some p :=
    find?_filter_of_nodup_key db.products (fun x => x.id) (fun x => x.is_active)
      it.product_id p hprod hfp
  refine ⟨p.stock_quantity, stockOf_eq hfull, ?_⟩
  subst hdb
  rw [applyOrderItems_stockOf_some (lastQtyFor_of_nodup hitems hit),
    show ({ db with orders := db.orders ++ [ord] } : DB).products = db.products from rfl,
    stockOf_eq hfull, snapStock_eq hfp, sumQtyFor_of_nodup hitems hit]
  rfl

/-- C1 witness: a successful single-item order on the concrete store. -/
theorem createOrder_stock_decrement_distinct_witness :
    ∃ s : Int, stockOf dbDup.products 1 = some s ∧
      stockOf dbOne.products 1 = some (s - sumQtyFor inpOne.items 1) :=
  createOrder_stock_decrement_distinct dbDup inpOne 5 "ORD-A" 1 dbOne ordOne
    (by decide) (by decide) (by rfl) ⟨1, 2⟩ (by decide)

/-! ### C2 -/

/-- C2 does not hold as stated: cancelling the duplicate-item order of the
C1 counterexample adds back 2 + 3 = 5 units (the restore loop re-reads the
stock), ending at 12 although the stock before the order was 10. -/
theorem cancelOrder_roundtrip_counterexample :
    (match createOrder dbDup inpDup 5 "ORD-X" 1 with
     | .ok (db1, ord) =>
       (match cancelOrder db1 ord.id inpDup.user_id with
        | .ok (db2, _) => stockOf db2.products 1
        | .error _ => none)
     | .error _ => none) = some 12 ∧
    stockOf dbDup.products 1 = some 10 ∧
    ¬ ((12 : Int) = 10) := by decide

/-- C2 (amended): a successful `cancelOrder` sets the order's status to
`cancelled` and adds each product's total ordered quantity back to its
stock; consequently, cancelling an order just created by `createOrder`
restores every product's stock to its value before the order was created
provided each product appears in at most one item of the order. -/
theorem cancelOrder_spec :
    (∀ (db : DB) (orderId userId : Nat) (db' : DB) (ord' : Order),
      cancelOrder db orderId userId = .ok (db', ord') →
      ord'.status = .cancelled ∧
      (∀ o ∈ db'.orders, o.id = orderId → o.status = OrderStatus.cancelled) ∧
      (∀ pid, stockOf db'.products pid
        = (stockOf db.products pid).map
            (fun s => s + sumQtyItems
              (db.orderItems.filter (fun it => it.order_id == orderId)) pid))) ∧
    (∀ (db : DB) (input : CreateOrderInput) (now : Nat) (onum : String) (oid : Nat)
       (db1 db2 : DB) (ord ord2 : Order),
      (db.products.map (fun p => p.id)).Nodup →
      (input.items.map (fun it => it.product_id)).Nodup →
      (∀ itm ∈ db.orderItems, itm.order_id ≠ oid) →
      createOrder db input now onum oid = .ok (db1, ord) →
      cancelOrder db1 oid input.user_id = .ok (db2, ord2) →
      ∀ pid, stockOf db2.products pid = stockOf db.products pid) := by
  constructor
  · intro db orderId userId db' ord' hc
    obtain ⟨ord, prods, hf, hpend, hrest, hord', hprods, horders, _⟩ := cancelOrder_ok_elim hc
    refine ⟨by rw [hord'], ?_, ?_⟩
    · intro o ho hid
      rw [horders] at ho
      obtain ⟨x, hx, rfl⟩ := List.mem_map.mp ho
      by_cases hid2 : x.id = orderId
      · rw [if_pos (by simpa using hid2)]
      · rw [if_neg (by simpa using hid2)] at hid ⊢
        exact absurd hid hid2
    · intro pid
      rw [hprods]
      exact restoreStock_stockOf hrest pid
  · intro db input now onum oid db1 db2 ord ord2 hprodnd hitemsnd hfresh hcr hcn
    obtain ⟨A, W, htot, hord, hdb1⟩ := createOrder_ok_elim hcr
    obtain ⟨ordc, prods, hf2, hpend2, hrest2, hord2, hprods2, horders2, _⟩ :=
      cancelOrder_ok_elim hcn
    have hitems1 : db1.orderItems
        = db.orderItems
          ++ input.items.map (orderItemOf (db.products.filter (fun x => x.is_active)) oid) := by
      rw [hdb1, applyOrderItems_orderItems]
    have hfilter : db1.orderItems.filter (fun it => it.order_id == oid)
        = input.items.map (orderItemOf (db.products.filter (fun x => x.is_active)) oid) := by
      rw [hitems1, List.filter_append,
        List.filter_eq_nil_iff.mpr (fun itm hitm => by simpa using hfresh itm hitm),
        List.nil_append]
      apply List.filter_eq_self.mpr
      intro x hx
      obtain ⟨j, _, rfl⟩ := List.mem_map.mp hx
      simp [orderItemOf]
    rw [hfilter] at hrest2
    intro pid
    have hstock2 := restoreStock_stockOf hrest2 pid
    rw [sumQtyItems_map] at hstock2
    rw [hprods2, hstock2]
    cases hlast : lastQtyFor input.items pid with
    | none =>
      have hnone := lastQtyFor_none_mem hlast
      have h1 : stockOf db1.products pid = stockOf db.products pid := by
        rw [hdb1, applyOrderItems_stockOf_none hlast]
      rw [h1, sumQtyFor_eq_zero hnone]
      cases stockOf db.products pid <;> simp
    | some q =>
      obtain ⟨it, hmem, hpid, hq⟩ := lastQtyFor_some_mem hlast
      subst hpid
      obtain ⟨p, hfp⟩ := computeTotals_ok_find htot it hmem
      have hfull : db.products.find? (fun x => x.id == it.product_id) = some p :=
        find?_filter_of_nodup_key db.products (fun x => x.id) (fun x => x.is_active)
          it.product_id p hprodnd hfp
      have h1 : stockOf db1.products it.product_id = some (p.stock_quantity - q) := by
        rw [hdb1, applyOrderItems_stockOf_some hlast,
          show ({ db with orders := db.orders ++ [ord] } : DB).products = db.products from rfl,
          stockOf_eq hfull, snapStock_eq hfp]
        rfl
      rw [h1, stockOf_eq hfull, sumQtyFor_of_nodup hitemsnd hmem, hq]
      simp [Int.sub_add_cancel]

/-- C2 witness: create then cancel a single-item order on the concrete
store; the product's stock returns to its initial value. -/
theorem cancelOrder_spec_witness :
    stockOf dbOneBack.products 1 = stockOf dbDup.products 1 :=
  cancelOrder_spec.2 dbDup inpOne 5 "ORD-A" 1 dbOne dbOneBack ordOne
    { ordOne with status := .cancelled } (by decide) (by decide) (by decide)
    (by rfl) (by rfl) 1

/-! ### C3 -/

/-- A store holding one delivered order of user 1. -/
def dbLife : DB :=
  { products := [], addresses := []
    orders := [{ id := 1, user_id := 1, order_number := "ORD-1", status := .delivered,
                 total_amount := 100, shipping_cost := 10,
                 shipping_tracking_number := none, created_at := 0 }]
    orderItems := [], payments := [] }

/-- The order row after resetting the delivered order to pending. -/
def ordLifeBack : Order :=
  { id := 1, user_id := 1, order_number := "ORD-1", status := .pending,
    total_amount := 100, shipping_cost := 10, shipping_tracking_number := none,
    created_at := 0 }

/-- The store after resetting the delivered order to pending. -/
def dbLifeBack : DB :=
  { products := [], addresses := [], orders := [ordLifeBack], orderItems := [],
    payments := [] }

/-- C3 does not hold as stated: `updateOrderStatus` happily moves a
delivered order back to pending, a transition outside the linear
lifecycle. -/
theorem updateOrderStatus_lifecycle_counterexample :
    (match updateOrderStatus dbLife { id := 1, status := .pending,
                                      shipping_tracking_number := none } with
     | .ok (_, o) => some o.status
     | .error _ => none) = some .pending ∧
    statusOf dbLife.orders 1 = some .delivered ∧
    specAllowedTransition .delivered .pending = false := by decide

/-- C3 (amended): `updateOrderStatus` enforces no lifecycle: for any
existing order it overwrites the status with exactly the requested enum
value, whatever the previous status was. -/
theorem updateOrderStatus_sets_any_status
    (db : DB) (input : UpdateOrderStatusInput) (db' : DB) (ord' : Order)
    (h : updateOrderStatus db input = .ok (db', ord')) :
    ord'.status = input.status ∧
    ∀ o ∈ db'.orders, o.id = input.id → o.status = input.status := by
  rw [updateOrderStatus] at h
  split at h
  · exact absurd h (by simp)
  · rename_i ord hf
    simp only [Except.ok.injEq, Prod.mk.injEq] at h
    constructor
    · rw [← h.2]
    · intro o ho hid
      rw [← h.1] at ho
      obtain ⟨x, hx, rfl⟩ := List.mem_map.mp ho
      by_cases hid2 : x.id = input.id
      · rw [if_pos (by simpa using hid2)]
      · rw [if_neg (by simpa using hid2)] at hid ⊢
        exact absurd hid hid2

/-- C3 witness: the delivered→pending update of the counterexample store
really goes through and writes the requested status. -/
theorem updateOrderStatus_sets_any_status_witness :
    ordLifeBack.status = OrderStatus.pending :=
  (updateOrderStatus_sets_any_status dbLife
    { id := 1, status := .pending, shipping_tracking_number := none }
    dbLifeBack ordLifeBack (by rfl)).1

/-! ### C7 -/

/-- A store whose order 1 has eleven order items. -/
def dbMany : DB :=
  { products := [], addresses := [], orders := []
    orderItems :=
      (List.range 11).map
        (fun i => { order_id := 1, product_id := i + 1, quantity := 1,
                    unit_price := 10, total_price := 10 })
    payments := [] }

/-- C7 does not hold as stated: `getOrderItems` is a list-returning
operation of the RPC surface (`orders.getItems`) that returns a bare array
— here 11 entries, more than the default limit of 10 — with no
`{items, total, page, limit}` wrapper. -/
theorem getOrderItems_unpaginated_counterexample :
    (getOrderItems dbMany 1).length = 11 ∧
    ¬ ((getOrderItems dbMany 1).length ≤ 10) ∧
    jsOr none 10 = 10 := by decide

/-- C7 (amended): `getProducts` and `getOrders` return the pagination shape
(list, total, page, limit): `total` counts all rows matching the filter,
`page` and `limit` echo the requested values with defaults 1 and 10, and
the returned list is the requested page slice, hence holds at most `limit`
entries; other list-returning operations (e.g. `getOrderItems`) return
plain arrays. -/
theorem pagination_spec (db : DB) (oinput : Option GetOrdersInput)
    (pinput : Option GetProductsInput) :
    (getOrders db oinput).total = (db.orders.filter (matchesOrderFilter oinput)).length ∧
    (getOrders db oinput).page = jsOr (oinput.bind (fun i => i.page)) 1 ∧
    (getOrders db oinput).limit = jsOr (oinput.bind (fun i => i.limit)) 10 ∧
    (getOrders db oinput).orders =
      ((sortByCreatedDesc (db.orders.filter (matchesOrderFilter oinput))).drop
        (((getOrders db oinput).page - 1) * (getOrders db oinput).limit).toNat).take
        (getOrders db oinput).limit.toNat ∧
    (getOrders db oinput).orders.length ≤ (getOrders db oinput).limit.toNat ∧
    (getProducts db pinput).total
      = (db.products.filter (matchesProductFilter pinput)).length ∧
    (getProducts db pinput).page = jsOr (pinput.bind (fun i => i.page)) 1 ∧
    (getProducts db pinput).limit = jsOr (pinput.bind (fun i => i.limit)) 10 ∧
    (getProducts db pinput).products =
      ((db.products.filter (matchesProductFilter pinput)).drop
        (((getProducts db pinput).page - 1) * (getProducts db pinput).limit).toNat).take
        (getProducts db pinput).limit.toNat ∧
    (getProducts db pinput).products.length ≤ (getProducts db pinput).limit.toNat := by
  refine ⟨rfl, rfl, rfl, rfl, ?_, rfl, rfl, rfl, rfl, ?_⟩
  · exact List.length_take_le _ _
  · exact List.length_take_le _ _

/-! ### Payments fixtures -/

/-- A paid payment with gateway transaction id "T" for order 1. -/
def payT : Payment :=
  { id := 1, order_id := 1, payment_method := "bank_transfer",
    payment_status := .paid, amount := 500,
    midtrans_transaction_id := some "T",
    midtrans_payment_type := some "bank_transfer", paid_at := none }

/-- The pending order payT pays for. -/
def ordPay : Order :=
  { id := 1, user_id := 1, order_number := "ORD-1", status := .pending,
    total_amount := 500, shipping_cost := 10, shipping_tracking_number := none,
    created_at := 0 }

/-- A store with one order and its payment. -/
def dbPay : DB :=
  { products := [], addresses := [], orders := [ordPay], orderItems := []
    payments := [payT] }

/-! ### C4 -/

/-- C4: for every gateway notification whose transaction id matches an
existing payment, `handlePaymentNotification` maps the gateway status to
the payment status exactly as the spec's table says:
capture/settlement→paid, pending→pending, cancel/expire→cancelled,
deny/failure→failed. -/
theorem handlePaymentNotification_maps_status
    (db : DB) (n : Notification) (now : Nat) (tid : String) (pay : Payment)
    (h1 : n.transaction_id = some tid) (h2 : tid ≠ "")
    (h3 : db.payments.find?
      (fun p => decide (p.midtrans_transaction_id = some tid)) = some pay) :
    ∃ db', handlePaymentNotification db n now = .ok (db', true) ∧
      ((n.transaction_status = some "capture" ∨ n.transaction_status = some "settlement") →
        paymentStatusOf db'.payments pay.id = some PaymentStatus.paid) ∧
      (n.transaction_status = some "pending" →
        paymentStatusOf db'.payments pay.id = some PaymentStatus.pending) ∧
      ((n.transaction_status = some "cancel" ∨ n.transaction_status = some "expire") →
        paymentStatusOf db'.payments pay.id = some PaymentStatus.cancelled) ∧
      ((n.transaction_status = some "deny" ∨ n.transaction_status = some "failure") →
        paymentStatusOf db'.payments pay.id = some PaymentStatus.failed) := by
  have hmem : pay ∈ db.payments := List.mem_of_find?_eq_some h3
  have hmain : handlePaymentNotification db n now
      = .ok (notifUpdate db pay (mapTransactionStatus n.transaction_status)
              n.payment_type now, true) := by
    simp only [handlePaymentNotification, h1, if_neg h2, h3]
  refine ⟨_, hmain, ?_, ?_, ?_, ?_⟩
  · rintro (hts | hts) <;>
      rw [paymentStatusOf_notifUpdate db pay _ n.payment_type now hmem, hts] <;> decide
  · intro hts
    rw [paymentStatusOf_notifUpdate db pay _ n.payment_type now hmem, hts]
    decide
  · rintro (hts | hts) <;>
      rw [paymentStatusOf_notifUpdate db pay _ n.payment_type now hmem, hts] <;> decide
  · rintro (hts | hts) <;>
      rw [paymentStatusOf_notifUpdate db pay _ n.payment_type now hmem, hts] <;> decide

/-- C4 witness: a "settlement" notification for the concrete store flips
the matching payment to paid. -/
theorem handlePaymentNotification_maps_status_witness :
    ∃ db', handlePaymentNotification dbPay ⟨some "T", some "settlement", none⟩ 7
        = .ok (db', true) ∧
      paymentStatusOf db'.payments 1 = some PaymentStatus.paid := by
  obtain ⟨db', hmain, hcap, _, _, _⟩ :=
    handlePaymentNotification_maps_status dbPay ⟨some "T", some "settlement", none⟩ 7 "T" payT
      rfl (by decide) (by decide)
  exact ⟨db', hmain, hcap (Or.inr rfl)⟩

/-! ### C6 -/

/-- C6: if the order exists and already has a payment record,
`processPayment` throws "Payment already exists" and inserts nothing; and
on any successful call the at-most-one-payment-per-order invariant is
preserved. -/
theorem processPayment_unique (db : DB) (input : ProcessPaymentInput)
    (pidNew : Nat) (txn : String) :
    ((∃ o ∈ db.orders, o.id = input.order_id) →
      (∃ p ∈ db.payments, p.order_id = input.order_id) →
      processPayment db input pidNew txn
        = .error ("Payment already exists for order " ++ toString input.order_id)) ∧
    (∀ db' pay, processPayment db input pidNew txn = .ok (db', pay) →
      atMostOnePaymentPerOrder db → atMostOnePaymentPerOrder db') := by
  constructor
  · rintro ⟨o, ho, hoid⟩ ⟨p, hp, hpoid⟩
    have hsome : (db.orders.find? (fun x => x.id == input.order_id)).isSome :=
      List.find?_isSome.mpr ⟨o, ho, by simpa using hoid⟩
    obtain ⟨r, hr⟩ := Option.isSome_iff_exists.mp hsome
    have hne : db.payments.filter (fun x => x.order_id == input.order_id) ≠ [] :=
      List.ne_nil_of_mem (List.mem_filter.mpr ⟨hp, by simpa using hpoid⟩)
    have hfalse : (db.payments.filter (fun x => x.order_id == input.order_id)).isEmpty
        = false := by
      cases hl : db.payments.filter (fun x => x.order_id == input.order_id) with
      | nil => exact absurd hl hne
      | cons a t => rfl
    simp only [processPayment, hr, hfalse, Bool.false_eq_true, if_false]
  · intro db' pay h hinv
    rw [processPayment] at h
    split at h
    · exact absurd h (by simp)
    · rename_i order hfo
      split at h
      · rename_i hempty
        have hnil : db.payments.filter (fun x => x.order_id == input.order_id) = [] := by
          simpa [List.isEmpty_iff] using hempty
        simp only [Except.ok.injEq, Prod.mk.injEq] at h
        intro oid
        have hpays : db'.payments = db.payments
            ++ [{ id := pidNew, order_id := input.order_id,
                  payment_method := input.payment_method,
                  payment_status := .pending, amount := order.total_amount,
                  midtrans_transaction_id := some txn,
                  midtrans_payment_type := some input.payment_method,
                  paid_at := none }] := by
          rw [← h.1]
        rw [hpays, List.filter_append]
        by_cases hoid : oid = input.order_id
        · subst hoid
          rw [hnil, List.nil_append]
          simp
        · have : ¬ input.order_id = oid := fun hh => hoid hh.symm
          rw [List.filter_cons_of_neg (by simpa using this), List.filter_nil,
            List.append_nil]
          exact hinv oid
      · exact absurd h (by simp)

/-- C6 witness: processing a second payment for order 1 of the concrete
store fails with the duplicate-payment error. -/
theorem processPayment_unique_witness :
    processPayment dbPay ⟨1, "card"⟩ 2 "TX"
      = .error ("Payment already exists for order " ++ toString (1 : Nat)) :=
  (processPayment_unique dbPay ⟨1, "card"⟩ 2 "TX").1
    ⟨ordPay, by decide, rfl⟩ ⟨payT, by decide, rfl⟩

/-! ### C8 -/

/-- C8: `calculateShippingCost` rejects non-positive weights and
unsupported couriers; otherwise it returns a non-empty `{service, cost,
etd}` list in which every cost is `ceil(weight/1000)*1000` times the
distance zone of the city pair times a fixed per-courier-service rate. -/
theorem calculateShippingCost_spec (input : CalculateShippingInput) :
    (input.weight ≤ 0 → calculateShippingCost input = .error "Weight must be positive") ∧
    (0 < input.weight → supportedCourier input.courier = false →
      calculateShippingCost input = .error ("Unsupported courier: " ++ input.courier)) ∧
    (0 < input.weight → supportedCourier input.courier = true →
      ∃ cs, calculateShippingCost input = .ok cs ∧ cs ≠ [] ∧
        ∀ c ∈ cs, ∃ rate : Int,
          c.cost = baseCostOf input.weight
            * getDistanceZone input.origin_city_id input.destination_city_id * rate) := by
  refine ⟨?_, ?_, ?_⟩
  · intro hw
    rw [calculateShippingCost, if_pos hw]
  · intro hw hsup
    simp [calculateShippingCost, if_neg (not_le.mpr hw), hsup]
  · intro hw hsup
    refine ⟨calculateCourierCost input.courier input.weight
        (getDistanceZone input.origin_city_id input.destination_city_id), ?_,
      calculateCourierCost_ne_nil _ _ _, calculateCourierCost_cost _ _ _⟩
    simp [calculateShippingCost, if_neg (not_le.mpr hw), hsup]

/-- C8 witness: a 1.5 kg JNE shipment between two concrete cities. -/
theorem calculateShippingCost_spec_witness :
    (0 : Int) < 1500 ∧ supportedCourier "jne" = true ∧
    ∃ cs, calculateShippingCost ⟨1, 10, 1500, "jne"⟩ = .ok cs ∧ cs ≠ [] ∧
      ∀ c ∈ cs, ∃ rate : Int,
        c.cost = baseCostOf 1500 * getDistanceZone 1 10 * rate :=
  ⟨by decide, by decide,
    (calculateShippingCost_spec ⟨1, 10, 1500, "jne"⟩).2.2 (by decide) (by decide)⟩

/-! ### C9 -/

/-- C9: a notification whose transaction id matches a payment but whose
`transaction_status` is none of the recognised gateway codes falls into the
default branch: the payment is set to pending with `paid_at` NULL and the
handler still returns success. -/
theorem handlePaymentNotification_unrecognised
    (db : DB) (n : Notification) (now : Nat) (tid : String) (pay : Payment)
    (h1 : n.transaction_id = some tid) (h2 : tid ≠ "")
    (h3 : db.payments.find?
      (fun p => decide (p.midtrans_transaction_id = some tid)) = some pay)
    (h4 : ∀ s, n.transaction_status = some s →
      s ∉ (["capture", "settlement", "pending", "cancel", "expire", "deny", "failure"] :
            List String)) :
    ∃ db', handlePaymentNotification db n now = .ok (db', true) ∧
      paymentStatusOf db'.payments pay.id = some PaymentStatus.pending ∧
      paymentPaidAtOf db'.payments pay.id = some none := by
  have hmem : pay ∈ db.payments := List.mem_of_find?_eq_some h3
  have hmap := mapTransactionStatus_default h4
  have hmain : handlePaymentNotification db n now
      = .ok (notifUpdate db pay (mapTransactionStatus n.transaction_status)
              n.payment_type now, true) := by
    simp only [handlePaymentNotification, h1, if_neg h2, h3]
  refine ⟨_, hmain, ?_, ?_⟩
  · rw [paymentStatusOf_notifUpdate db pay _ n.payment_type now hmem, hmap]
  · rw [paymentPaidAtOf_notifUpdate db pay _ n.payment_type now hmem, hmap]
    simp

/-- C9 witness: a "challenge" notification (a real gateway code the switch
does not recognise) on the concrete store. -/
theorem handlePaymentNotification_unrecognised_witness :
    ∃ db', handlePaymentNotification dbPay ⟨some "T", some "challenge", none⟩ 7
        = .ok (db', true) ∧
      paymentStatusOf db'.payments 1 = some PaymentStatus.pending ∧
      paymentPaidAtOf db'.payments 1 = some none :=
  handlePaymentNotification_unrecognised dbPay ⟨some "T", some "challenge", none⟩ 7 "T" payT
    rfl (by decide) (by decide)
    (fun s hs => by injection hs with h; rw [← h]; decide)

/-! ### C10 -/

theorem paymentStatusOf_cancelMap (ps : List Payment) (pid : Nat) {r : Payment}
    (hr : ps.find? (fun p => p.id == pid) = some r) :
    paymentStatusOf
      (ps.map (fun p =>
        if p.id == pid then { p with payment_status := PaymentStatus.cancelled } else p))
      pid = some PaymentStatus.cancelled := by
  rw [paymentStatusOf,
    find?_map_set_payment ps pid
      (fun p => { p with payment_status := PaymentStatus.cancelled }) (fun p => rfl), hr]
  have : r.id = pid := by simpa using List.find?_some hr
  simp [this]

/-- C10: for a paid payment, refunding with an explicit amount of 0 behaves
exactly like a full refund with no amount (`amount || paymentAmount`
treats 0 as falsy): it succeeds and flips the payment to cancelled. -/
theorem refundPayment_zero_full (db : DB) (paymentId nowMs : Nat) (pay : Payment)
    (h1 : db.payments.find? (fun p => p.id == paymentId) = some pay)
    (h2 : pay.payment_status = PaymentStatus.paid) :
    refundPayment db paymentId (some 0) nowMs = refundPayment db paymentId none nowMs ∧
    ∃ db' rid, refundPayment db paymentId (some 0) nowMs = .ok (db', rid) ∧
      paymentStatusOf db'.payments paymentId = some PaymentStatus.cancelled := by
  constructor
  · simp only [refundPayment, h1, h2]
    norm_num
  · have hok : refundPayment db paymentId (some 0) nowMs
        = .ok ({ db with
                 payments := db.payments.map
                   (fun p =>
                     if p.id == paymentId then
                       { p with payment_status := PaymentStatus.cancelled }
                     else p) },
               "REF-" ++ toString nowMs ++ "-" ++ toString paymentId) := by
      simp only [refundPayment, h1, h2]
      norm_num
    exact ⟨_, _, hok, paymentStatusOf_cancelMap db.payments paymentId h1⟩

/-- C10 witness: refunding the concrete paid payment with amount 0. -/
theorem refundPayment_zero_full_witness :
    refundPayment dbPay 1 (some 0) 9 = refundPayment dbPay 1 none 9 ∧
    ∃ db' rid, refundPayment dbPay 1 (some 0) 9 = .ok (db', rid) ∧
      paymentStatusOf db'.payments 1 = some PaymentStatus.cancelled :=
  refundPayment_zero_full dbPay 1 9 payT (by decide) (by decide)

/-! ### C5 -/

theorem clearUser_clears (addrs : List CustomerAddress) (uId : Nat) :
    ∀ a ∈ addrs.map
        (fun a => if a.user_id == uId then { a with is_default := false } else a),
      a.user_id = uId → a.is_default = false := by
  intro a ha hu
  obtain ⟨x, hx, rfl⟩ := List.mem_map.mp ha
  by_cases hxu : x.user_id = uId
  · rw [if_pos (by simpa using hxu)]
  · rw [if_neg (by simpa using hxu)] at hu
    exact absurd hu hxu

theorem defaultCount_append (l1 l2 : List CustomerAddress) (uid : Nat) :
    defaultCount (l1 ++ l2) uid = defaultCount l1 uid + defaultCount l2 uid := by
  simp [defaultCount, List.countP_append]

/-- Two addresses of user 1, exactly one default. -/
def dbAddr : DB :=
  { products := [], orders := [], orderItems := [], payments := []
    addresses := [{ id := 1, user_id := 1, is_default := true },
                  { id := 2, user_id := 1, is_default := false }] }

/-- C5 (spec-modelled): per-user there is at most one default address, and
`setDefaultAddress`, `createAddress` and `updateAddress` preserve this;
whenever they make an address the default they clear `is_default` on every
other address of that user. -/
theorem defaultAddress_invariant (db : DB)
    (hnd : (db.addresses.map (fun a => a.id)).Nodup)
    (hinv : atMostOneDefault db) :
    (∀ aId uId,
      atMostOneDefault (setDefaultAddress db aId uId) ∧
      ∀ a ∈ (setDefaultAddress db aId uId).addresses,
        a.user_id = uId → a.id ≠ aId → a.is_default = false) ∧
    (∀ (input : CreateAddressInput) (newId : Nat),
      atMostOneDefault (createAddress db input newId) ∧
      (input.is_default = true →
        ∀ a ∈ (createAddress db input newId).addresses,
          a.user_id = input.user_id → a.id ≠ newId → a.is_default = false)) ∧
    (∀ (aId : Nat) (b : Bool) (db' : DB), updateAddress db aId (some b) = .ok db' →
      atMostOneDefault db' ∧
      (b = true →
        ∀ addr, db.addresses.find? (fun a => a.id == aId) = some addr →
          ∀ a ∈ db'.addresses, a.user_id = addr.user_id → a.id ≠ aId →
            a.is_default = false)) := by
  refine ⟨?_, ?_, ?_⟩
  · intro aId uId
    constructor
    · intro uid
      by_cases huid : uid = uId
      · subst huid
        exact defaultCount_setUserDefault_self db.addresses uid aId hnd
      · rw [show defaultCount (setDefaultAddress db aId uId).addresses uid
            = defaultCount (setUserDefault db.addresses uId aId) uid from rfl,
          defaultCount_setUserDefault_other db.addresses uId aId uid huid]
        exact hinv uid
    · exact setUserDefault_clears db.addresses uId aId
  · intro input newId
    constructor
    · intro uid
      rw [show (createAddress db input newId).addresses
          = (if input.is_default then
              db.addresses.map
                (fun a =>
                  if a.user_id == input.user_id then { a with is_default := false } else a)
            else db.addresses)
            ++ [{ id := newId, user_id := input.user_id,
                  is_default := input.is_default }] from rfl,
        defaultCount_append]
      by_cases hdef : input.is_default
      · rw [if_pos hdef]
        by_cases huid : uid = input.user_id
        · subst huid
          rw [defaultCount_clear_self]
          simp [defaultCount, hdef]
        · rw [defaultCount_clear_other db.addresses input.user_id uid huid]
          have hnew : defaultCount
              [{ id := newId, user_id := input.user_id,
                 is_default := input.is_default }] uid = 0 := by
            have : ¬ input.user_id = uid := fun hh => huid hh.symm
            simp [defaultCount, this]
          rw [hnew]
          simpa using hinv uid
      · rw [if_neg hdef]
        have hnew : defaultCount
            [{ id := newId, user_id := input.user_id,
               is_default := input.is_default }] uid = 0 := by
          simp [defaultCount, Bool.eq_false_iff.mpr hdef]
        rw [hnew]
        simpa using hinv uid
    · intro hdef a ha hu hne
      rw [show (createAddress db input newId).addresses
          = (if input.is_default then
              db.addresses.map
                (fun a =>
                  if a.user_id == input.user_id then { a with is_default := false } else a)
            else db.addresses)
            ++ [{ id := newId, user_id := input.user_id,
                  is_default := input.is_default }] from rfl, if_pos hdef] at ha
      rcases List.mem_append.mp ha with hl | hr
      · exact clearUser_clears db.addresses input.user_id a hl hu
      · rw [List.mem_singleton] at hr
        subst hr
        exact absurd rfl hne
  · intro aId b db' h
    rw [updateAddress] at h
    split at h
    · exact absurd h (by simp)
    · rename_i addr hfa
      simp only at h
      split at h
      · rename_i hb
        simp only [Except.ok.injEq] at h
        constructor
        · intro uid
          rw [← h,
            show ({ db with
                    addresses := setUserDefault db.addresses addr.user_id aId } : DB).addresses
              = setUserDefault db.addresses addr.user_id aId from rfl]
          by_cases huid : uid = addr.user_id
          · subst huid
            exact defaultCount_setUserDefault_self db.addresses addr.user_id aId hnd
          · rw [defaultCount_setUserDefault_other db.addresses addr.user_id aId uid huid]
            exact hinv uid
        · intro _ addr' hfa' a ha hu hne
          rw [hfa] at hfa'
          cases hfa'
          rw [← h] at ha
          exact setUserDefault_clears db.addresses addr.user_id aId a ha hu hne
      · rename_i hb
        simp only [Except.ok.injEq] at h
        constructor
        · intro uid
          rw [← h,
            show ({ db with
                    addresses := db.addresses.map
                      (fun a =>
                        if a.id == aId then { a with is_default := false } else a) } :
                DB).addresses
              = db.addresses.map
                  (fun a => if a.id == aId then { a with is_default := false } else a)
              from rfl]
          exact le_trans (defaultCount_setFalseById db.addresses aId uid) (hinv uid)
        · intro hb2
          exact absurd hb2 hb

/-- C5 witness: making address 2 the default on the concrete two-address
store keeps at most one default per user. -/
theorem defaultAddress_invariant_witness :
    atMostOneDefault (setDefaultAddress dbAddr 2 1) :=
  ((defaultAddress_invariant dbAddr (by decide)
    (by
      intro uid
      by_cases h : uid = 1
      · subst h; decide
      · have h0 : defaultCount dbAddr.addresses uid = 0 := by
          rw [defaultCount, List.countP_eq_zero]
          intro a ha
          fin_cases ha
          · simp [Ne.symm h]
          · simp
        rw [h0]
        exact Nat.zero_le 1)).1 2 1).1

end Ecom
